import Mathlib

/-!
Shallow embedding of the sample-changer task-orchestration engine of
`HardwareObjects/abstract/AbstractSampleChanger.py` (class `SampleChanger`,
with the enumerations `SampleChangerState` and `SampleChangerMode`).

Modelling conventions:
* The mutable Python object is a record `SC`; every method becomes a pure
  function from `SC` to `SC` (plus a result).
* `raise Exception(...)` becomes `Except.error` carrying an `Err` value; the
  exception does not roll back state, so fallible methods return
  `Except Err α × SC` where the second component is the state at the moment
  of normal return or of the raise.
* Event emission (`self.emit(...)`) is recorded by appending an `Event` to a
  trace field `events`.
* gevent greenlets are modelled synchronously: `_run` (spawned by
  `_execute_task` with `wait=False` and then optionally joined via
  `ret.get()`) is executed to completion in place; a caller with
  `wait=False` receives `Except.ok none` (the greenlet handle is not a
  value) while the captured exception still lands in the event trace.
* Device-specific abstract callbacks (`_do_load`, `_do_unload`,
  `_do_change_mode`, `_do_update_info`) are parameters, bundled in `Device`.
* Machine integers do not occur; states and modes are small Python ints,
  embedded as `Int` (the constructor initialises `state = -1`).
-/

namespace MXCuBE

namespace SampleChangerState

def Unknown : Int := 0

def Ready : Int := 1

def Loaded : Int := 2

def Loading : Int := 3

def Unloading : Int := 4

def Selecting : Int := 5

def Scanning : Int := 6

def Resetting : Int := 7

def Charging : Int := 8

def Moving : Int := 9

def ChangingMode : Int := 10

def StandBy : Int := 11

def Disabled : Int := 12

def Alarm : Int := 13

def Fault : Int := 14

def Initializing : Int := 15

def Closing : Int := 16

/-- Method `SampleChangerState.tostring`: lookup in `STATE_DESC` with default
"Unknown". -/
def tostring (state : Int) : String :=
  if state = Ready then "Ready"
  else if state = Loaded then "Loaded"
  else if state = Alarm then "Alarm"
  else if state = Charging then "Charging"
  else if state = Disabled then "Disabled"
  else if state = Fault then "Fault"
  else if state = Loading then "Loading"
  else if state = Resetting then "Resetting"
  else if state = Scanning then "Scanning"
  else if state = Selecting then "Selecting"
  else if state = Unloading then "Unloading"
  else if state = Moving then "Moving"
  else if state = ChangingMode then "Changing Mode"
  else if state = StandBy then "StandBy"
  else if state = Initializing then "Initializing"
  else if state = Closing then "Closing"
  else "Unknown"

end SampleChangerState

namespace SampleChangerMode

def Unknown : Int := 0

def Normal : Int := 1

def Charging : Int := 8

def Disabled : Int := 11

end SampleChangerMode

/-- Modelled from the spec: `Container.Sample` (module
`sample_changer/Container.py`, not part of the sources at hand) is the leaf
entity of the storage tree, carrying a unique colon-separated address and a
`loaded` flag.  Only the fields the orchestration engine reads are kept. -/
structure Sample where
  address : String
  loaded : Bool
  deriving DecidableEq, Repr

/-- Exceptions.  The Python code raises plain `Exception(msg)` everywhere;
we keep the precondition failure of `assert_can_execute_task` as a separate
constructor (`notReady`) and give device callbacks their own constructor so
that concrete counterexamples can use a recognisable failure value. -/
inductive Err where
  | notReady (msg : String)
  | exc (msg : String)
  | deviceFailure (msg : String)
  deriving DecidableEq, Repr

/-- One `self.emit(...)` call, with its payload. -/
inductive Event where
  | stateChanged (current former : Int)
  | statusChanged (status : String)
  | infoChanged
  | loadedSampleChanged (sample : Option Sample)
  | selectionChanged
  | taskFinished (task : Option Int) (ret : Option String) (error : Option Err)
  deriving DecidableEq, Repr

/-- The mutable fields of a `SampleChanger` instance that the claims are
about, plus the event trace.  The greenlet handle `task_proc` is not
modelled (the embedding is synchronous). -/
structure SC where
  state : Int
  status : String
  task : Option Int
  task_error : Option Err
  samples : List Sample
  timer_update_inverval : Int
  timer_update_counter : Int
  dirty : Bool
  events : List Event
  deriving DecidableEq, Repr

def emit (sc : SC) (e : Event) : SC :=
  { sc with events := sc.events ++ [e] }

/-- The bundle of device-specific abstract callbacks a concrete sample
changer supplies (`_do_load`, `_do_unload`, `_do_change_mode`,
`_do_update_info`).  A callback may mutate the instance and may raise. -/
structure Device where
  do_load : Option Sample → SC → Except Err (Option String) × SC
  do_unload : Option Sample → SC → Except Err (Option String) × SC
  do_change_mode : Int → SC → Except Err (Option String) × SC
  do_update_info : SC → SC

/-- Modelled from the spec: `Container.get_sample_list` (not part of the
sources at hand) flattens the tree depth-first into a stable ordered list of
samples; the embedding keeps that flattened list as the state. -/
def get_sample_list (sc : SC) : List Sample :=
  sc.samples

/-- Modelled from the spec: `Container._is_dirty` (not part of the sources
at hand) reports whether the last refresh changed registry-visible fields. -/
def is_dirty (sc : SC) : Bool :=
  sc.dirty

/-- Modelled from the spec: `Container._reset_dirty` (not part of the
sources at hand) clears the dirty snapshot after `update_info` published. -/
def reset_dirty (sc : SC) : SC :=
  { sc with dirty := false }

/-- Modelled from the spec: `Sample._set_loaded` (not part of the sources at
hand) assigns the sample's `loaded` flag. -/
def sampleSetLoaded (s : Sample) (b : Bool) : Sample :=
  { s with loaded := b }

def get_state (sc : SC) : Int :=
  sc.state

def get_status (sc : SC) : String :=
  sc.status

def get_task_error (sc : SC) : Option Err :=
  sc.task_error

def is_ready (sc : SC) : Bool :=
  sc.state = SampleChangerState.Ready ∨ sc.state = SampleChangerState.Loaded ∨
    sc.state = SampleChangerState.Charging ∨ sc.state = SampleChangerState.StandBy

def is_enabled (sc : SC) : Bool :=
  sc.state ≠ SampleChangerState.Disabled

def assert_not_charging (sc : SC) : Except Err Unit :=
  if sc.state = SampleChangerState.Charging then
    Except.error (Err.exc "Sample Changer is in Charging mode")
  else Except.ok ()

def assert_can_execute_task (sc : SC) : Except Err Unit :=
  if is_ready sc then Except.ok ()
  else
    Except.error (Err.notReady
      ("Cannot execute task: bad state (" ++ SampleChangerState.tostring sc.state ++ ")"))

def get_loaded_sample (sc : SC) : Option Sample :=
  (get_sample_list sc).find? (fun s => s.loaded)

def has_loaded_sample (sc : SC) : Bool :=
  (get_loaded_sample sc).isSome

/-- Method `_set_state(state=None, status=None)`.  Note the Python local `status`
is overwritten with the canonical description inside the first branch when
it was `None`. -/
def set_state (sc : SC) (state? : Option Int) (status? : Option String) : SC :=
  let p : SC × Option String :=
    match state? with
    | some st =>
      if sc.state ≠ st then
        let former := sc.state
        let sc1 := { sc with state := st }
        let status1 : Option String :=
          match status? with
          | none => some (SampleChangerState.tostring st)
          | some s => some s
        (emit sc1 (Event.stateChanged st former), status1)
      else (sc, status?)
    | none => (sc, status?)
  match p.2 with
  | some s =>
    if p.1.status ≠ s then emit { p.1 with status := s } (Event.statusChanged s)
    else p.1
  | none => p.1

def trigger_loaded_sample_changed (sc : SC) (s : Option Sample) : SC :=
  emit sc (Event.loadedSampleChanged s)

/-- Method `update_info`: remember the formerly loaded sample, run the device
refresh hook, publish `infoChanged` when dirty, publish
`loadedSampleChanged` when the loaded sample changed and the two differ by
address (or one side is absent), then clear the dirty snapshot. -/
def update_info (dui : SC → SC) (sc : SC) : SC :=
  let former := get_loaded_sample sc
  let sc1 := dui sc
  let sc2 := if is_dirty sc1 then emit sc1 Event.infoChanged else sc1
  let loaded := get_loaded_sample sc2
  let sc3 :=
    if loaded ≠ former then
      if loaded = none ∨ former = none ∨
          Option.map Sample.address loaded ≠ Option.map Sample.address former then
        trigger_loaded_sample_changed sc2 loaded
      else sc2
    else sc2
  reset_dirty sc3

/-- Method `_reset_loaded_sample`: clear the flag on every sample, then publish. -/
def reset_loaded_sample (sc : SC) : SC :=
  let sc1 := { sc with samples := (get_sample_list sc).map (fun s => sampleSetLoaded s false) }
  trigger_loaded_sample_changed sc1 none

/-- Method `_set_loaded_sample(sample)`: clear the flag on every sample other than
`sample`, set it on `sample`, then publish (unconditionally). -/
def set_loaded_sample (sc : SC) (sample : Sample) : SC :=
  let sc1 :=
    { sc with
      samples :=
        (get_sample_list sc).map (fun s =>
          if s ≠ sample then sampleSetLoaded s false else sampleSetLoaded s true) }
  trigger_loaded_sample_changed sc1 (some sample)

/-- Method `_run`: run the device callback capturing any exception, refresh via
`update_info`, clear the active-task slot, publish the task-finished event
carrying `(task, ret, exception)` and re-raise the captured exception.
Note the implementation never writes the exception to `task_error` and the
restoration `_set_state(Ready)` present in its docstring is commented out. -/
def run (dui : SC → SC) (method : SC → Except Err (Option String) × SC) (sc : SC) :
    Except Err (Option String) × SC :=
  let mr := method sc
  let ret : Option String :=
    match mr.1 with
    | Except.ok r => r
    | Except.error _ => none
  let exception : Option Err :=
    match mr.1 with
    | Except.ok _ => none
    | Except.error e => some e
  let sc1 := update_info dui mr.2
  let tsk := sc1.task
  let sc2 := { sc1 with task := none }
  let sc3 := emit sc2 (Event.taskFinished tsk ret exception)
  match exception with
  | some e => (Except.error e, sc3)
  | none => (Except.ok ret, sc3)

/-- Method `_execute_task(task, wait, method, *args)`: precondition check, record
the active task, clear `task_error`, enter the busy state, run the
background unit.  With `wait=True` the caller gets the background result
(the greenlet's `get()` re-raises); with `wait=False` it gets the handle,
modelled as `Except.ok none`. -/
def execute_task (dui : SC → SC) (task : Int) (wait : Bool)
    (method : SC → Except Err (Option String) × SC) (sc : SC) :
    Except Err (Option String) × SC :=
  match assert_can_execute_task sc with
  | Except.error e => (Except.error e, sc)
  | Except.ok _ =>
    let sc1 := { sc with task := some task, task_error := none }
    let sc2 := set_state sc1 (some task) none
    let r := run dui method sc2
    (if wait then r.1 else Except.ok none, r.2)

/-- Method `wait_ready(timeout=10)` under the synchronous embedding: nothing can
change the state while the caller polls, so the loop returns at once when
ready and otherwise reaches the timeout. -/
def wait_ready (sc : SC) : Except Err Unit :=
  if is_ready sc then Except.ok () else Except.error (Err.exc "Timeout waiting ready")

/-- Method `unload(sample_slot, wait)`.  `_resolve_component` is the identity on
non-string components, so the already-resolved sample is passed directly. -/
def unload (dev : Device) (sample_slot : Option Sample) (wait : Bool) (sc : SC) :
    Except Err (Option String) × SC :=
  match assert_not_charging sc with
  | Except.error e => (Except.error e, sc)
  | Except.ok _ =>
    if has_loaded_sample sc then
      execute_task dev.do_update_info SampleChangerState.Unloading wait
        (dev.do_unload sample_slot) sc
    else (Except.error (Err.exc "No sample is loaded"), sc)

def addrString : Option Sample → String
  | some s => s.address
  | none => "None"

/-- Method `load(sample, wait)`.  When a sample is already loaded and a different
one is requested, the source delegates to
`chained_load(get_loaded_sample(), sample)` which performs
`unload(current)` (blocking), `wait_ready(timeout=10)`, then
`load(sample)` again; the recursion is bounded by an explicit `fuel`
parameter (the source recurses unboundedly if the device never actually
unloads). -/
def load (dev : Device) : Nat → Option Sample → Bool → SC → Except Err (Option String) × SC
  | fuel, sample, wait, sc =>
    match assert_not_charging sc with
    | Except.error e => (Except.error e, sc)
    | Except.ok _ =>
      if has_loaded_sample sc then
        if sample = none ∨ sample = get_loaded_sample sc then
          (Except.error (Err.exc
            ("The sample " ++ addrString (get_loaded_sample sc) ++ " is already loaded")), sc)
        else
          match fuel with
          | 0 => (Except.error (Err.exc "chained load recursion fuel exhausted"), sc)
          | Nat.succ n =>
            let u := unload dev (get_loaded_sample sc) true sc
            match u.1 with
            | Except.error e => (Except.error e, u.2)
            | Except.ok _ =>
              match wait_ready u.2 with
              | Except.error e => (Except.error e, u.2)
              | Except.ok _ => load dev n sample true u.2
      else
        execute_task dev.do_update_info SampleChangerState.Loading wait
          (dev.do_load sample) sc

/-- Method `chained_load(sample_to_unload, sample_to_load)`: `unload` (blocking,
errors propagate), `wait_ready(timeout=10)`, then `load` (blocking). -/
def chained_load (dev : Device) (fuel : Nat) (sample_to_unload sample_to_load : Option Sample)
    (sc : SC) : Except Err (Option String) × SC :=
  let u := unload dev sample_to_unload true sc
  match u.1 with
  | Except.error e => (Except.error e, u.2)
  | Except.ok _ =>
    match wait_ready u.2 with
    | Except.error e => (Except.error e, u.2)
    | Except.ok _ => load dev fuel sample_to_load true u.2

/-- Method `change_mode(mode, wait)`: early return on the Unknown sentinel or when
the mode value equals the current state value; leaving Disabled first goes
through Unknown plus a refresh; entering Disabled mode sets the Disabled
state before the task precondition is checked. -/
def change_mode (dev : Device) (mode : Int) (wait : Bool) (sc : SC) :
    Except Err (Option String) × SC :=
  if mode = SampleChangerMode.Unknown then (Except.ok none, sc)
  else if mode = get_state sc then (Except.ok none, sc)
  else
    let sc1 :=
      if get_state sc = SampleChangerState.Disabled then
        update_info dev.do_update_info (set_state sc (some SampleChangerState.Unknown) none)
      else if mode = SampleChangerMode.Disabled then
        set_state sc (some SampleChangerState.Disabled) none
      else sc
    execute_task dev.do_update_info SampleChangerState.ChangingMode wait
      (dev.do_change_mode mode) sc1

/-- One 100 ms cycle of `__update_timer_task` while the loop is alive: when
enabled, increment the counter, test the (self-comparing) guard, and when it
holds run `_on_timer_update` (which calls `update_info`) and reset the
counter to 0. -/
def update_timer_cycle (dui : SC → SC) (sc : SC) : SC :=
  if is_enabled sc then
    let sc1 := { sc with timer_update_counter := sc.timer_update_counter + 1 }
    if sc1.timer_update_counter ≥ sc1.timer_update_counter then
      { update_info dui sc1 with timer_update_counter := 0 }
    else sc1
  else sc

/-- A registry mutation for the loaded-flag invariant: one call to
`_set_loaded_sample` or `_reset_loaded_sample`. -/
inductive RegOp where
  | set (s : Sample)
  | reset
  deriving DecidableEq, Repr

def applyRegOp (sc : SC) (op : RegOp) : SC :=
  match op with
  | RegOp.set s => set_loaded_sample sc s
  | RegOp.reset => reset_loaded_sample sc

def atMostOneLoaded (sc : SC) : Prop :=
  (sc.samples.filter (fun s => s.loaded)).length ≤ 1

instance (sc : SC) : Decidable (atMostOneLoaded sc) := by
  unfold atMostOneLoaded
  infer_instance

def addrNodup (sc : SC) : Prop :=
  (sc.samples.map Sample.address).Nodup

instance (sc : SC) : Decidable (addrNodup sc) := by
  unfold addrNodup
  infer_instance

def isLoadedSampleChangedEvent : Event → Bool
  | Event.loadedSampleChanged _ => true
  | _ => false

deriving instance DecidableEq for Except

/-! Concrete fixtures: a two-sample changer in the `Ready` state, mirroring
the shape built by `SampleChangerMockup` (whose `_do_update_info` is a
no-op, embedded as `id`). -/

def sampleA : Sample := { address := "1:1", loaded := false }

def sampleB : Sample := { address := "1:2", loaded := false }

def sampleALoaded : Sample := { address := "1:1", loaded := true }

def scReady : SC :=
  { state := SampleChangerState.Ready, status := "Ready", task := none, task_error := none,
    samples := [sampleA, sampleB], timer_update_inverval := 5, timer_update_counter := 0,
    dirty := false, events := [] }

def scLoadedA : SC :=
  { scReady with samples := [sampleALoaded, sampleB] }

def devNoop : Device :=
  { do_load := fun _ sc => (Except.ok none, sc),
    do_unload := fun _ sc => (Except.ok none, sc),
    do_change_mode := fun _ sc => (Except.ok none, sc),
    do_update_info := id }

def devLoadFails : Device :=
  { devNoop with do_load := fun _ sc => (Except.error (Err.deviceFailure "load failed"), sc) }

def devUnloadFails : Device :=
  { devNoop with do_unload := fun _ sc => (Except.error (Err.deviceFailure "unload failed"), sc) }

/-! Theorems. -/

/-- C1: the claim fails on the code.  With a device in the shape of the
repository's `SampleChangerMockup` (its `_do_update_info` is a no-op) and a
`_do_load` callback that raises, after the background unit of `load`
finishes and the task-finished event is published, `get_state()` is still
the busy `Loading` state — not `Ready` and not a fault-equivalent state.
The `_set_state(SampleChangerState.Ready)` restoration shown in `_run`'s
own docstring is commented out in its body, so nothing restores the state. -/
theorem failed_load_leaves_busy_state :
    get_state (load devLoadFails 1 (some sampleA) true scReady).2 = SampleChangerState.Loading
    ∧ is_ready (load devLoadFails 1 (some sampleA) true scReady).2 = false
    ∧ get_state (load devLoadFails 1 (some sampleA) true scReady).2 ≠ SampleChangerState.Ready
    ∧ get_state (load devLoadFails 1 (some sampleA) true scReady).2 ≠ SampleChangerState.Disabled
    ∧ get_state (load devLoadFails 1 (some sampleA) true scReady).2 ≠ SampleChangerState.Alarm
    ∧ get_state (load devLoadFails 1 (some sampleA) true scReady).2 ≠ SampleChangerState.Fault
    ∧ (load devLoadFails 1 (some sampleA) true scReady).2.events.getLast? =
        some (Event.taskFinished (some SampleChangerState.Loading) none
          (some (Err.deviceFailure "load failed"))) := by
  decide

/-- C2: the claim fails on the code.  For a background callback that raises,
the exception is captured, carried in the task-finished event payload and
re-raised to a `wait=True` caller — but it is never stored in `task_error`
(`_execute_task` sets `task_error = None` and `_run` never assigns it), so
`get_task_error()` returns `None` after the task finishes, contradicting
`get_task_error`'s own docstring. -/
theorem failed_task_error_not_stored :
    (execute_task id SampleChangerState.Loading true
        (fun sc => (Except.error (Err.deviceFailure "boom"), sc)) scReady).1 =
      Except.error (Err.deviceFailure "boom")
    ∧ (execute_task id SampleChangerState.Loading true
        (fun sc => (Except.error (Err.deviceFailure "boom"), sc)) scReady).2.events.getLast? =
      some (Event.taskFinished (some SampleChangerState.Loading) none
        (some (Err.deviceFailure "boom")))
    ∧ get_task_error (execute_task id SampleChangerState.Loading true
        (fun sc => (Except.error (Err.deviceFailure "boom"), sc)) scReady).2 = none := by
  decide

/-- C3: while a task is active (the machine is in one of the busy states
entered by `_execute_task`), a second `_execute_task` call fails at the
`assert_can_execute_task` precondition with the not-ready error naming the
current state, and the instance is returned completely unchanged — for
every candidate method, so no second background unit is launched and no
state or operation field is modified. -/
theorem second_task_rejected_in_busy_state
    (dui : SC → SC) (task : Int) (wait : Bool)
    (method : SC → Except Err (Option String) × SC) (sc : SC)
    (h : sc.state = SampleChangerState.Loading ∨ sc.state = SampleChangerState.Unloading ∨
      sc.state = SampleChangerState.Selecting ∨ sc.state = SampleChangerState.Scanning ∨
      sc.state = SampleChangerState.Resetting ∨ sc.state = SampleChangerState.ChangingMode) :
    execute_task dui task wait method sc =
      (Except.error (Err.notReady
        ("Cannot execute task: bad state (" ++ SampleChangerState.tostring sc.state ++ ")")), sc) := by
  have hnr : is_ready sc = false := by
    unfold is_ready
    rcases h with h | h | h | h | h | h <;> rw [h] <;> decide
  simp [execute_task, assert_can_execute_task, hnr]

theorem second_task_rejected_in_busy_state_witness :
    execute_task id SampleChangerState.Selecting true (fun sc => (Except.ok none, sc))
        { scReady with state := SampleChangerState.Loading } =
      (Except.error (Err.notReady "Cannot execute task: bad state (Loading)"),
        { scReady with state := SampleChangerState.Loading }) :=
  (second_task_rejected_in_busy_state id SampleChangerState.Selecting true
      (fun sc => (Except.ok none, sc)) { scReady with state := SampleChangerState.Loading }
      (Or.inl (by decide))).trans (by decide)

/-- C7: `change_mode(mode)` is a no-op — no state event, no task-finished
event, no task started, the instance returned unchanged — when `mode` is
the Unknown sentinel or equals the value `get_state()` reports (the code
compares the mode against the state value). -/
theorem change_mode_noop (dev : Device) (mode : Int) (wait : Bool) (sc : SC)
    (h : mode = SampleChangerMode.Unknown ∨ mode = get_state sc) :
    change_mode dev mode wait sc = (Except.ok none, sc) := by
  by_cases h0 : mode = SampleChangerMode.Unknown
  · simp [change_mode, h0]
  · rcases h with h | h
    · exact absurd h h0
    · simp [change_mode, h0, h]

theorem change_mode_noop_witness :
    change_mode devNoop SampleChangerMode.Normal true scReady = (Except.ok none, scReady) :=
  change_mode_noop devNoop SampleChangerMode.Normal true scReady (Or.inr (by decide))

/-- C9: in the fine update-timer loop body the guard compares the freshly
incremented counter with itself, so on every enabled 100 ms cycle the
refresh hook (`_on_timer_update`, i.e. `update_info`) runs and the counter
is reset to 0; `timer_update_inverval` plays no role (it does not occur in
the cycle at all — the equation holds for every stored interval value). -/
theorem update_timer_guard_always_fires (dui : SC → SC) (sc : SC)
    (h : is_enabled sc = true) :
    update_timer_cycle dui sc =
      { update_info dui { sc with timer_update_counter := sc.timer_update_counter + 1 } with
          timer_update_counter := 0 } := by
  simp [update_timer_cycle, h]

theorem update_timer_guard_always_fires_witness :
    update_timer_cycle id
        { scReady with timer_update_inverval := 1000000, timer_update_counter := 3 } =
      { scReady with timer_update_inverval := 1000000, timer_update_counter := 0 } :=
  (update_timer_guard_always_fires id
      { scReady with timer_update_inverval := 1000000, timer_update_counter := 3 }
      (by decide)).trans (by decide)

/-- C8: `is_ready()` holds exactly in the states `Ready`, `Loaded`,
`Charging`, `StandBy`; in every other state `assert_can_execute_task()`
raises the not-ready error naming the current state, and consequently
`_execute_task` (the entry point of every task) rejects the call with that
error leaving the instance untouched, so a task may start only from those
four states. -/
theorem ready_states_characterisation (sc : SC) :
    (is_ready sc = true ↔
      (sc.state = SampleChangerState.Ready ∨ sc.state = SampleChangerState.Loaded ∨
        sc.state = SampleChangerState.Charging ∨ sc.state = SampleChangerState.StandBy))
    ∧ (is_ready sc = false →
        assert_can_execute_task sc = Except.error (Err.notReady
          ("Cannot execute task: bad state (" ++ SampleChangerState.tostring sc.state ++ ")")))
    ∧ (is_ready sc = false → ∀ dui task wait method,
        execute_task dui task wait method sc =
          (Except.error (Err.notReady
            ("Cannot execute task: bad state (" ++ SampleChangerState.tostring sc.state ++ ")")),
            sc)) := by
  refine ⟨?_, ?_, ?_⟩
  · simp [is_ready]
  · intro h
    simp [assert_can_execute_task, h]
  · intro h dui task wait method
    simp [execute_task, assert_can_execute_task, h]

theorem ready_states_characterisation_witness :
    is_ready { scReady with state := SampleChangerState.Loaded } = true
    ∧ assert_can_execute_task { scReady with state := SampleChangerState.Fault } =
        Except.error (Err.notReady "Cannot execute task: bad state (Fault)") :=
  ⟨(ready_states_characterisation
      { scReady with state := SampleChangerState.Loaded }).1.mpr (Or.inr (Or.inl (by decide))),
    ((ready_states_characterisation
      { scReady with state := SampleChangerState.Fault }).2.1 (by decide)).trans (by decide)⟩

/-- Entering a new state via `_set_state(state)` with no explicit status:
the state field afterwards is the requested state. -/
theorem set_state_some_state (sc : SC) (st : Int) (h : sc.state ≠ st) :
    (set_state sc (some st) none).state = st := by
  unfold set_state
  simp only [h, if_true, ne_eq, not_false_eq_true, ite_true]
  split <;> simp [emit]

/-- C10: from any starting state that is neither the `Disabled` state (12)
nor numerically equal to the `Disabled` mode value (11),
`change_mode(Disabled)` first moves the machine into the `Disabled` state
and only then reaches the `assert_can_execute_task` precondition inside
`_execute_task`, which fails because `Disabled` is not a ready state; the
call raises the not-ready error while the machine stays `Disabled` — the
mutation made before the precondition check persists on error. -/
theorem change_mode_disabled_raises_but_mutates (dev : Device) (wait : Bool) (sc : SC)
    (h1 : sc.state ≠ SampleChangerState.Disabled) (h2 : sc.state ≠ SampleChangerMode.Disabled) :
    change_mode dev SampleChangerMode.Disabled wait sc =
      (Except.error (Err.notReady "Cannot execute task: bad state (Disabled)"),
        set_state sc (some SampleChangerState.Disabled) none)
    ∧ (set_state sc (some SampleChangerState.Disabled) none).state =
        SampleChangerState.Disabled := by
  have hst : (set_state sc (some SampleChangerState.Disabled) none).state =
      SampleChangerState.Disabled :=
    set_state_some_state sc SampleChangerState.Disabled h1
  refine ⟨?_, hst⟩
  have hmode : ¬(SampleChangerMode.Disabled = get_state sc) := fun hh => h2 hh.symm
  have hdis : ¬(get_state sc = SampleChangerState.Disabled) := h1
  have hnr : is_ready (set_state sc (some SampleChangerState.Disabled) none) = false := by
    unfold is_ready
    rw [hst]
    decide
  have h0 : ¬(SampleChangerMode.Disabled = SampleChangerMode.Unknown) := by decide
  simp only [change_mode, h0, hmode, hdis, if_false, ite_true, ite_false]
  simp [execute_task, assert_can_execute_task, hnr, hst]
  decide

/-- A flag update that keeps every sample's address keeps the address list
of the flattened tree. -/
theorem addr_map_flag_update (l : List Sample) (f : Sample → Sample)
    (hf : ∀ s, (f s).address = s.address) :
    (l.map f).map Sample.address = l.map Sample.address := by
  induction l with
  | nil => rfl
  | cons a t ih => simp [hf, ih]

/-- Both registry mutations keep the addresses (hence their uniqueness). -/
theorem addrNodup_applyRegOp (sc : SC) (op : RegOp) (h : addrNodup sc) :
    addrNodup (applyRegOp sc op) := by
  cases op with
  | set s =>
    unfold addrNodup applyRegOp set_loaded_sample trigger_loaded_sample_changed emit
      get_sample_list at *
    rw [addr_map_flag_update]
    · exact h
    · intro x
      by_cases hx : x = s <;> simp [hx, sampleSetLoaded]
  | reset =>
    unfold addrNodup applyRegOp reset_loaded_sample trigger_loaded_sample_changed emit
      get_sample_list at *
    rw [addr_map_flag_update]
    · exact h
    · intro x
      simp [sampleSetLoaded]

/-- After clearing all flags, no sample is loaded. -/
theorem reset_filter_loaded (l : List Sample) :
    (l.map (fun s => sampleSetLoaded s false)).filter (fun x => x.loaded) = [] := by
  induction l with
  | nil => rfl
  | cons a t ih => simp [sampleSetLoaded, ih]

/-- With unique addresses, `_set_loaded_sample` marks at most one entry of
the flattened list. -/
theorem count_loaded_after_set (l : List Sample) (s : Sample)
    (h : (l.map Sample.address).Nodup) :
    ((l.map (fun y => if y ≠ s then sampleSetLoaded y false else sampleSetLoaded y true)).filter
        (fun x => x.loaded)).length ≤ 1 := by
  induction l with
  | nil => simp
  | cons a t ih =>
    rw [List.map_cons, List.nodup_cons] at h
    by_cases has : a = s
    · subst has
      have htail : ((t.map
          (fun y => if y ≠ a then sampleSetLoaded y false else sampleSetLoaded y true)).filter
            (fun x => x.loaded)) = [] := by
        rw [List.filter_eq_nil_iff]
        intro x hx
        rcases List.mem_map.mp hx with ⟨y, hy, rfl⟩
        by_cases hya : y = a
        · exact absurd (hya ▸ List.mem_map_of_mem Sample.address hy) h.1
        · simp [hya, sampleSetLoaded]
      have hga : (if a ≠ a then sampleSetLoaded a false else sampleSetLoaded a true) =
          sampleSetLoaded a true := by simp
      rw [List.map_cons, hga, List.filter_cons_of_pos, htail]
      · simp
      · simp [sampleSetLoaded]
    · have hne : a ≠ s := has
      simp only [List.map_cons, hne, ne_eq, not_false_eq_true, ite_true, if_pos]
      rw [List.filter_cons_of_neg]
      · exact ih h.2
      · simp [sampleSetLoaded]

theorem atMostOneLoaded_set (sc : SC) (s : Sample) (h : addrNodup sc) :
    atMostOneLoaded (set_loaded_sample sc s) := by
  unfold atMostOneLoaded set_loaded_sample trigger_loaded_sample_changed emit get_sample_list
  exact count_loaded_after_set sc.samples s h

theorem atMostOneLoaded_reset (sc : SC) : atMostOneLoaded (reset_loaded_sample sc) := by
  unfold atMostOneLoaded reset_loaded_sample trigger_loaded_sample_changed emit get_sample_list
  simp [reset_filter_loaded]

theorem loaded_invariant_foldl (ops : List RegOp) (sc : SC)
    (h1 : addrNodup sc) (h2 : atMostOneLoaded sc) :
    addrNodup (ops.foldl applyRegOp sc) ∧ atMostOneLoaded (ops.foldl applyRegOp sc) := by
  induction ops generalizing sc with
  | nil => exact ⟨h1, h2⟩
  | cons op rest ih =>
    have h1a := addrNodup_applyRegOp sc op h1
    have h2a : atMostOneLoaded (applyRegOp sc op) := by
      cases op with
      | set s => exact atMostOneLoaded_set sc s h1
      | reset => exact atMostOneLoaded_reset sc
    simpa using ih (applyRegOp sc op) h1a h2a

/-- C4: over an entity tree with unique addresses, every finite sequence of
`_set_loaded_sample`/`_reset_loaded_sample` calls preserves the
at-most-one-loaded invariant; moreover a `_set_loaded_sample(sample)` call
leaves the flag set exactly on `sample` (every loaded entry afterwards is
`sample` with its flag on, i.e. all other samples were cleared), and if
`sample` is in the tree its marked copy is in the result. -/
theorem loaded_invariant (sc : SC) (ops : List RegOp)
    (h1 : addrNodup sc) (h2 : atMostOneLoaded sc) :
    atMostOneLoaded (ops.foldl applyRegOp sc)
    ∧ (∀ s x, x ∈ (set_loaded_sample sc s).samples → x.loaded = true →
        x = sampleSetLoaded s true)
    ∧ (∀ s, s ∈ sc.samples → sampleSetLoaded s true ∈ (set_loaded_sample sc s).samples) := by
  refine ⟨(loaded_invariant_foldl ops sc h1 h2).2, ?_, ?_⟩
  · intro s x hx hload
    unfold set_loaded_sample trigger_loaded_sample_changed emit get_sample_list at hx
    rcases List.mem_map.mp hx with ⟨y, hy, rfl⟩
    by_cases hys : y = s
    · subst hys
      simp [sampleSetLoaded]
    · simp [hys, sampleSetLoaded] at hload
  · intro s hs
    unfold set_loaded_sample trigger_loaded_sample_changed emit get_sample_list
    have : (fun y => if y ≠ s then sampleSetLoaded y false else sampleSetLoaded y true) s =
        sampleSetLoaded s true := by simp
    exact this ▸ List.mem_map_of_mem _ hs

theorem loaded_invariant_witness :
    addrNodup scReady ∧ atMostOneLoaded scReady
    ∧ atMostOneLoaded
        ([RegOp.set sampleA, RegOp.set sampleB, RegOp.reset,
          RegOp.set sampleALoaded].foldl applyRegOp scReady) :=
  ⟨by decide, by decide,
    (loaded_invariant scReady
      [RegOp.set sampleA, RegOp.set sampleB, RegOp.reset, RegOp.set sampleALoaded]
      (by decide) (by decide)).1⟩

/-- Emitting an event does not change which sample is loaded. -/
theorem get_loaded_sample_emit (t : SC) (e : Event) :
    get_loaded_sample (emit t e) = get_loaded_sample t := by
  simp [get_loaded_sample, get_sample_list, emit]

/-- C5 counterexample: the claim is false as stated.  In `scLoadedA` the
sample at address `1:1` is already the loaded sample; calling
`_set_loaded_sample` with that very sample resolves to a loaded sample with
the same address as before, yet exactly one more `loadedSampleChanged`
event is published — the code publishes unconditionally. -/
theorem set_loaded_same_address_still_publishes :
    get_loaded_sample scLoadedA = some sampleALoaded
    ∧ Option.map Sample.address (get_loaded_sample (set_loaded_sample scLoadedA sampleALoaded)) =
        Option.map Sample.address (get_loaded_sample scLoadedA)
    ∧ (set_loaded_sample scLoadedA sampleALoaded).events.countP isLoadedSampleChangedEvent =
        scLoadedA.events.countP isLoadedSampleChangedEvent + 1 := by
  decide

/-- C5 (amended): `_set_loaded_sample` always publishes a
`loadedSampleChanged` event for the given sample; the address-guarded
publication is performed by `update_info`, which publishes exactly one
`loadedSampleChanged` event (beyond whatever the device refresh hook itself
emitted) precisely when the loaded sample after the refresh differs from
the one before it and moreover one of the two is absent or their addresses
differ. -/
theorem set_loaded_publish_discipline (dui : SC → SC) (sc : SC) (s : Sample) :
    (set_loaded_sample sc s).events = sc.events ++ [Event.loadedSampleChanged (some s)]
    ∧ (update_info dui sc).events.countP isLoadedSampleChangedEvent =
        (dui sc).events.countP isLoadedSampleChangedEvent +
          (if get_loaded_sample (dui sc) ≠ get_loaded_sample sc ∧
              (get_loaded_sample (dui sc) = none ∨ get_loaded_sample sc = none ∨
                Option.map Sample.address (get_loaded_sample (dui sc)) ≠
                  Option.map Sample.address (get_loaded_sample sc)) then 1 else 0) := by
  constructor
  · simp [set_loaded_sample, trigger_loaded_sample_changed, emit]
  · by_cases hd : is_dirty (dui sc) <;>
      [skip; skip] <;>
      simp only [update_info, reset_dirty, trigger_loaded_sample_changed, hd,
        get_loaded_sample_emit, if_true, if_false, ite_true, ite_false] <;>
      by_cases hne : get_loaded_sample (dui sc) = get_loaded_sample sc
    · simp [hne, emit, List.countP_append, isLoadedSampleChangedEvent]
    · by_cases hor : get_loaded_sample (dui sc) = none ∨ get_loaded_sample sc = none ∨
          Option.map Sample.address (get_loaded_sample (dui sc)) ≠
            Option.map Sample.address (get_loaded_sample sc)
      · simp [hne, hor, emit, List.countP_append, isLoadedSampleChangedEvent]
      · simp [hne, hor, emit, List.countP_append, isLoadedSampleChangedEvent]
    · simp [hne, emit, List.countP_append, isLoadedSampleChangedEvent]
    · by_cases hor : get_loaded_sample (dui sc) = none ∨ get_loaded_sample sc = none ∨
          Option.map Sample.address (get_loaded_sample (dui sc)) ≠
            Option.map Sample.address (get_loaded_sample sc)
      · simp [hne, hor, emit, List.countP_append, isLoadedSampleChangedEvent]
      · simp [hne, hor, emit, List.countP_append, isLoadedSampleChangedEvent]

/-- C6: when a sample is loaded and a different sample `S` is requested,
`load(S)` delegates to the chained path: it equals
`chained_load(current, S)`, which runs `unload(current)` as a first
blocking operation and `load(S)` as a second one after `wait_ready`; if the
unload phase raises, the whole call returns that error with the state
exactly as the unload attempt left it — the load phase is never started;
if the unload phase succeeds and the machine is ready again, the call
continues exactly as a fresh blocking `load(S)` from the post-unload
state. -/
theorem chained_load_two_phase (dev : Device) (fuel : Nat) (S : Sample) (wait : Bool) (sc : SC)
    (hch : sc.state ≠ SampleChangerState.Charging)
    (hl : has_loaded_sample sc = true)
    (hne : (some S : Option Sample) ≠ get_loaded_sample sc) :
    (load dev (fuel + 1) (some S) wait sc =
      chained_load dev fuel (get_loaded_sample sc) (some S) sc)
    ∧ (∀ e sc1, unload dev (get_loaded_sample sc) true sc = (Except.error e, sc1) →
        load dev (fuel + 1) (some S) wait sc = (Except.error e, sc1))
    ∧ (∀ v sc1, unload dev (get_loaded_sample sc) true sc = (Except.ok v, sc1) →
        is_ready sc1 = true →
        load dev (fuel + 1) (some S) wait sc = load dev fuel (some S) true sc1) := by
  have hnc : assert_not_charging sc = Except.ok () := by
    simp [assert_not_charging, hch]
  have hguard : ¬((some S : Option Sample) = none ∨ (some S : Option Sample) =
      get_loaded_sample sc) := by
    simp [hne]
  have hmain : load dev (fuel + 1) (some S) wait sc =
      chained_load dev fuel (get_loaded_sample sc) (some S) sc := by
    rw [load, hnc]
    simp only [hl, if_true, hguard, if_false, ite_true, ite_false, chained_load]
  refine ⟨hmain, ?_, ?_⟩
  · intro e sc1 hu
    rw [hmain]
    unfold chained_load
    rw [hu]
  · intro v sc1 hu hrdy
    rw [hmain]
    unfold chained_load
    rw [hu]
    simp [wait_ready, hrdy]

theorem chained_load_two_phase_witness :
    load devUnloadFails 1 (some sampleB) true scLoadedA =
      (Except.error (Err.deviceFailure "unload failed"),
        (unload devUnloadFails (get_loaded_sample scLoadedA) true scLoadedA).2) :=
  (chained_load_two_phase devUnloadFails 0 sampleB true scLoadedA
      (by decide) (by decide) (by decide)).2.1
    (Err.deviceFailure "unload failed")
    (unload devUnloadFails (get_loaded_sample scLoadedA) true scLoadedA).2 (by decide)

theorem change_mode_disabled_raises_but_mutates_witness :
    (change_mode devNoop SampleChangerMode.Disabled true scReady).1 =
      Except.error (Err.notReady "Cannot execute task: bad state (Disabled)")
    ∧ (change_mode devNoop SampleChangerMode.Disabled true scReady).2.state =
        SampleChangerState.Disabled := by
  have h := change_mode_disabled_raises_but_mutates devNoop true scReady
    (by decide) (by decide)
  rw [h.1]
  exact ⟨rfl, h.2⟩

end MXCuBE
